import Mathlib

/-!
Shallow embedding of the messengerKo backend (models, REST routes and the
socket gateway) together with proofs of the specified properties.

Identifiers (Mongo ObjectIds) are modelled as natural numbers, timestamps
(JS Date values in milliseconds) as integers, and each Mongo collection as a
list of documents in insertion order.  A findOne query is List.find? over the
collection, an updateMany is a map, and a document save replaces the stored
document with the same id after running the schema's pre-save validators.
-/

namespace MessengerKo

/-- Decidable equality of Except values, used to evaluate route results. -/
instance exceptDecEq {ε α : Type} [DecidableEq ε] [DecidableEq α] :
    DecidableEq (Except ε α) := fun x y =>
  match x, y with
  | .ok a, .ok b =>
    match decEq a b with
    | isTrue h => isTrue (h ▸ rfl)
    | isFalse h => isFalse (fun hh => h (Except.ok.inj hh))
  | .error a, .error b =>
    match decEq a b with
    | isTrue h => isTrue (h ▸ rfl)
    | isFalse h => isFalse (fun hh => h (Except.error.inj hh))
  | .ok _, .error _ => isFalse (fun hh => Except.noConfusion hh)
  | .error _, .ok _ => isFalse (fun hh => Except.noConfusion hh)

/-- The JS String.prototype.trim: strip whitespace from both ends, modelled
over the character list of the string. -/
def jsTrim (s : String) : String :=
  ⟨((s.data.dropWhile Char.isWhitespace).reverse.dropWhile
      Char.isWhitespace).reverse⟩

/-- Helper for first-occurrence deduplication: skip elements already seen. -/
def dedupFirstAux (seen : List Nat) : List Nat → List Nat
  | [] => []
  | x :: xs =>
    if x ∈ seen then dedupFirstAux seen xs
    else x :: dedupFirstAux (x :: seen) xs

/-- First-occurrence deduplication, the semantics of the JS idiom
spreading a Set built from a list: later duplicates are dropped. -/
def dedupFirst (l : List Nat) : List Nat := dedupFirstAux [] l

/-! ## Message model (src/models/Message.js) -/

/-- The message kind enum: text, image, file or system. -/
inductive MsgType where
  | text
  | image
  | file
  | system
deriving DecidableEq, Repr

/-- One entry of the readBy array: reader id plus read timestamp. -/
structure ReadReceipt where
  user : Nat
  readAt : Int
deriving DecidableEq, Repr

/-- A stored message document (messageSchema). -/
structure Message where
  id : Nat
  conversation : Nat
  sender : Nat
  content : String
  type : MsgType := .text
  fileUrl : Option String := none
  fileName : Option String := none
  fileSize : Option Nat := none
  readBy : List ReadReceipt := []
  editedAt : Option Int := none
  isEdited : Bool := false
  isDeleted : Bool := false
  deletedAt : Option Int := none
  replyTo : Option Nat := none
  createdAt : Int := 0
deriving DecidableEq, Repr

/-- The isReadBy virtual: whether the readBy array has an entry for userId. -/
def Message.isReadBy (m : Message) (userId : Nat) : Bool :=
  m.readBy.any (fun r => r.user == userId)

/-- markAsRead: push a receipt for userId unless one is already present. -/
def Message.markAsRead (m : Message) (userId : Nat) (now : Int) : Message :=
  if m.readBy.any (fun r => r.user == userId) then m
  else { m with readBy := m.readBy ++ [{ user := userId, readAt := now }] }

/-- editContent: overwrite the content, set the edited flag and timestamp. -/
def Message.editContent (m : Message) (newContent : String) (now : Int) : Message :=
  { m with content := newContent, isEdited := true, editedAt := some now }

/-- softDelete: flag as deleted, stamp deletedAt, replace the stored content
with the fixed placeholder. -/
def Message.softDelete (m : Message) (now : Int) : Message :=
  { m with isDeleted := true, deletedAt := some now,
           content := "This message was deleted" }

/-- The countDocuments query of getUnreadCount: conversation matches, sender
differs from userId, no readBy entry has user = userId, and not deleted. -/
def unreadQuery (conversationId userId : Nat) (m : Message) : Bool :=
  m.conversation == conversationId && m.sender != userId &&
    !(m.readBy.any (fun r => r.user == userId)) && m.isDeleted == false

/-- getUnreadCount: number of documents in the store matching unreadQuery. -/
def getUnreadCount (msgs : List Message) (conversationId userId : Nat) : Nat :=
  (msgs.filter (unreadQuery conversationId userId)).length

/-- Spec-side restatement of the unread count, following the specification
text: the cardinality of the set of messages of the conversation whose sender
is not the identity, whose read-receipt set does not contain the identity and
which are not soft-deleted.  Written independently of unreadQuery so the two
can be compared. -/
def specUnreadCount (msgs : List Message) (conversationId userId : Nat) : Nat :=
  (msgs.filter (fun m => m.conversation == conversationId)).countP
    (fun m => decide (m.sender ≠ userId ∧
      (∀ r ∈ m.readBy, r.user ≠ userId) ∧ m.isDeleted = false))

/-- Insert a message into a list kept sorted by createdAt descending. -/
def insertByCreatedAtDesc (m : Message) : List Message → List Message
  | [] => [m]
  | x :: xs =>
    if m.createdAt ≤ x.createdAt then x :: insertByCreatedAtDesc m xs
    else m :: x :: xs

/-- Sort messages by createdAt descending (the sort of the mongoose query). -/
def sortByCreatedAtDesc (msgs : List Message) : List Message :=
  msgs.foldr insertByCreatedAtDesc []

/-- getConversationMessages: find non-deleted messages of the conversation,
sort by createdAt descending, then apply skip/limit pagination. -/
def getConversationMessages (msgs : List Message) (conversationId : Nat)
    (page : Nat := 1) (limit : Nat := 50) : List Message :=
  let skip := (page - 1) * limit
  (((msgs.filter (fun m =>
      m.conversation == conversationId && m.isDeleted == false))
    |> sortByCreatedAtDesc).drop skip).take limit

/-- The JSON shape of a message as produced by toJSON (no __v field). -/
structure MessageView where
  id : Nat
  conversation : Nat
  sender : Nat
  content : String
  type : MsgType
  fileUrl : Option String
  fileName : Option String
  fileSize : Option Nat
  readBy : List ReadReceipt
  editedAt : Option Int
  isEdited : Bool
  isDeleted : Bool
  deletedAt : Option Int
  replyTo : Option Nat
  createdAt : Int
deriving DecidableEq, Repr

/-- toJSON: copy the document; when deleted, show the placeholder content and
drop the file metadata keys (modelled as none). -/
def Message.toJSONview (m : Message) : MessageView :=
  if m.isDeleted then
    { id := m.id, conversation := m.conversation, sender := m.sender,
      content := "This message was deleted", type := m.type,
      fileUrl := none, fileName := none, fileSize := none,
      readBy := m.readBy, editedAt := m.editedAt, isEdited := m.isEdited,
      isDeleted := m.isDeleted, deletedAt := m.deletedAt,
      replyTo := m.replyTo, createdAt := m.createdAt }
  else
    { id := m.id, conversation := m.conversation, sender := m.sender,
      content := m.content, type := m.type,
      fileUrl := m.fileUrl, fileName := m.fileName, fileSize := m.fileSize,
      readBy := m.readBy, editedAt := m.editedAt, isEdited := m.isEdited,
      isDeleted := m.isDeleted, deletedAt := m.deletedAt,
      replyTo := m.replyTo, createdAt := m.createdAt }

/-! ## Conversation model (src/models/Conversation.js) -/

/-- The conversation type enum: direct or group. -/
inductive ConvType where
  | direct
  | group
deriving DecidableEq, Repr

/-- A stored conversation document (conversationSchema). -/
structure Conversation where
  id : Nat
  participants : List Nat
  type : ConvType := .direct
  name : Option String := none
  description : Option String := none
  avatar : Option String := none
  lastMessage : Option Nat := none
  lastActivity : Int := 0
  createdBy : Nat
  isActive : Bool := true
deriving DecidableEq, Repr

/-- The pre-save participant validation hook: a direct conversation must have
exactly 2 participants and a group conversation at least 2. -/
def Conversation.preSaveCheck (c : Conversation) : Except String Conversation :=
  if c.type == .direct && c.participants.length != 2 then
    .error "Direct conversations must have exactly 2 participants"
  else if c.type == .group && c.participants.length < 2 then
    .error "Group conversations must have at least 2 participants"
  else .ok c

/-- Whether the pre-save hook accepts the conversation. -/
def validParticipants (c : Conversation) : Bool :=
  match c.preSaveCheck with
  | .ok _ => true
  | .error _ => false

/-- findDirectConversation: findOne with type direct whose participants
array contains both users (the $all query). -/
def findDirectConversation (convs : List Conversation) (u1 u2 : Nat) :
    Option Conversation :=
  convs.find? (fun c => c.type == .direct &&
    c.participants.contains u1 && c.participants.contains u2)

/-- addParticipant: push unless already present, then save (running the
pre-save validation); a failed save leaves the store unchanged. -/
def Conversation.addParticipant (c : Conversation) (userId : Nat) :
    Except String Conversation :=
  if c.participants.contains userId then .ok c
  else Conversation.preSaveCheck { c with participants := c.participants ++ [userId] }

/-- removeParticipant: filter the user out, deactivate when empty, then save
(running the pre-save validation). -/
def Conversation.removeParticipant (c : Conversation) (userId : Nat) :
    Except String Conversation :=
  let remaining := c.participants.filter (fun p => p ≠ userId)
  Conversation.preSaveCheck
    { c with participants := remaining,
             isActive := if remaining.length == 0 then false else c.isActive }

/-- updateLastActivity: stamp lastActivity and, when a message id is given,
point lastMessage at it, then save. -/
def Conversation.updateLastActivity (c : Conversation) (messageId : Option Nat)
    (now : Int) : Except String Conversation :=
  Conversation.preSaveCheck
    { c with lastActivity := now,
             lastMessage := match messageId with
               | some mid => some mid
               | none => c.lastMessage }

/-! ## Create-conversation route (POST /api/conversations) -/

/-- The create-or-get conversation route.  The caller is appended to the
request participants and duplicates are dropped (the JS Set spread); for a
direct request with exactly two resulting participants an existing direct
conversation is returned unchanged; otherwise all participants must exist as
users, and a new conversation is saved subject to the pre-save validation.
Returns the response together with the resulting conversation store. -/
def createConversationRoute (users : List Nat) (convs : List Conversation)
    (nextId callerId : Nat) (participants : List Nat) (ctype : ConvType)
    (name : Option String) (now : Int) :
    Except String Conversation × List Conversation :=
  let allParticipants := dedupFirst (participants ++ [callerId])
  let existing : Option Conversation :=
    if ctype == .direct && allParticipants.length == 2 then
      match allParticipants with
      | [u1, u2] => findDirectConversation convs u1 u2
      | _ => none
    else none
  match existing with
  | some c => (.ok c, convs)
  | none =>
    if allParticipants.all (fun u => users.contains u) then
      let c : Conversation :=
        { id := nextId, participants := allParticipants, type := ctype,
          name := name, createdBy := callerId, lastActivity := now }
      match c.preSaveCheck with
      | .ok saved => (.ok saved, convs ++ [saved])
      | .error _ => (.error "Server error creating conversation", convs)
    else (.error "One or more participants not found", convs)

/-! ## Admin deleteUser controller (bulk $pull of participants) -/

/-- The updateMany/$pull step of deleteUser: remove the user from the
participants array of every conversation.  This is a bulk update, so the
schema's pre-save validation hook does not run. -/
def pullParticipant (convs : List Conversation) (userId : Nat) :
    List Conversation :=
  convs.map (fun c =>
    { c with participants := c.participants.filter (fun p => p ≠ userId) })

/-- deleteUser: check the user exists, delete the user's messages (the query
filters on a senderId field the message schema does not define, so it matches
no documents and the message store is unchanged), pull the user from all
conversation participant arrays, delete conversations left with zero
participants, and delete the user.  Returns the remaining users,
conversations and messages. -/
def deleteUserOp (users : List Nat) (convs : List Conversation)
    (msgs : List Message) (userId : Nat) :
    Except String (List Nat × List Conversation × List Message) :=
  if users.contains userId then
    let convs1 := pullParticipant convs userId
    let convs2 := convs1.filter (fun c => c.participants.length ≠ 0)
    .ok (users.filter (fun u => u ≠ userId), convs2, msgs)
  else .error "User not found"

/-! ## Message edit route (PUT /api/messages/:id) -/

/-- The 15-minute edit window in milliseconds. -/
def editWindowMs : Int := 15 * 60 * 1000

/-- The ownership lookup of the edit route: findOne by id with sender equal
to the caller and isDeleted false. -/
def findEditableMessage (msgs : List Message) (id callerId : Nat) :
    Option Message :=
  msgs.find? (fun m => m.id == id && m.sender == callerId &&
    m.isDeleted == false)

/-- The edit-message route: reject empty content, look the message up by id
and ownership, reject when created before now minus the edit window, else
store the edited message (the schema caps content at 2000 characters; a
longer content makes the save throw, surfaced as a server error). -/
def editMessageRoute (msgs : List Message) (callerId id : Nat)
    (content : String) (now : Int) : Except String (List Message) :=
  if jsTrim content == "" then .error "Message content is required"
  else
    match findEditableMessage msgs id callerId with
    | none => .error "Message not found or you are not authorized to edit it"
    | some m =>
      let fifteenMinutesAgo := now - editWindowMs
      if m.createdAt < fifteenMinutesAgo then
        .error "Message is too old to edit"
      else
        let edited := m.editContent (jsTrim content) now
        if edited.content.length ≤ 2000 then
          .ok (msgs.map (fun x => if x.id == m.id then edited else x))
        else .error "Server error editing message"

/-! ## User model (src/models/User.js) -/

/-- A stored user document (userSchema).  The socket id is modelled as an
optional numeric socket identifier; vKey models the __v version key. -/
structure UserDoc where
  id : Nat
  username : String
  email : String
  password : String
  avatar : Option String := none
  isOnline : Bool := false
  lastSeen : Option Int := none
  socketId : Option Nat := none
  isActive : Bool := true
  createdAt : Int := 0
  vKey : Nat := 0
deriving DecidableEq, Repr

/-- setOnlineStatus: set the online flag and socket id; when going offline
also stamp lastSeen with the current time. -/
def UserDoc.setOnlineStatus (u : UserDoc) (isOnline : Bool)
    (socketId : Option Nat) (now : Int) : UserDoc :=
  { u with isOnline := isOnline, socketId := socketId,
           lastSeen := if isOnline then u.lastSeen else some now }

/-- The JSON shape of a user as produced by toJSON: every stored field except
password, socketId and __v. -/
structure UserView where
  id : Nat
  username : String
  email : String
  avatar : Option String
  isOnline : Bool
  lastSeen : Option Int
  isActive : Bool
  createdAt : Int
deriving DecidableEq, Repr

/-- toJSON for users: copy the document and drop password, socketId, __v. -/
def UserDoc.toJSONview (u : UserDoc) : UserView :=
  { id := u.id, username := u.username, email := u.email, avatar := u.avatar,
    isOnline := u.isOnline, lastSeen := u.lastSeen, isActive := u.isActive,
    createdAt := u.createdAt }

/-! ## Admin model (src/models/Admin.js) -/

/-- The admin role enum. -/
inductive AdminRole where
  | superAdmin
  | admin
  | moderator
deriving DecidableEq, Repr

/-- A stored admin document (adminSchema). -/
structure AdminDoc where
  id : Nat
  username : String
  email : String
  password : String
  firstName : String
  lastName : String
  avatar : Option String := none
  role : AdminRole := .admin
  permissions : List String := []
  isActive : Bool := true
  lastLogin : Option Int := none
  loginAttempts : Nat := 0
  lockUntil : Option Int := none
  createdBy : Option Nat := none
  twoFactorEnabled : Bool := false
  twoFactorSecret : Option String := none
  createdAt : Int := 0
  vKey : Nat := 0
deriving DecidableEq, Repr

/-- The JSON shape of an admin as produced by toJSON with virtuals: every
stored field except password, twoFactorSecret and __v, plus the fullName and
isLocked virtuals. -/
structure AdminView where
  id : Nat
  username : String
  email : String
  firstName : String
  lastName : String
  avatar : Option String
  role : AdminRole
  permissions : List String
  isActive : Bool
  lastLogin : Option Int
  loginAttempts : Nat
  lockUntil : Option Int
  createdBy : Option Nat
  twoFactorEnabled : Bool
  createdAt : Int
  fullName : String
  isLocked : Bool
deriving DecidableEq, Repr

/-- toJSON for admins: toObject with virtuals (fullName, isLocked evaluated
against the current time), then drop password, twoFactorSecret, __v. -/
def AdminDoc.toJSONview (a : AdminDoc) (now : Int) : AdminView :=
  { id := a.id, username := a.username, email := a.email,
    firstName := a.firstName, lastName := a.lastName, avatar := a.avatar,
    role := a.role, permissions := a.permissions, isActive := a.isActive,
    lastLogin := a.lastLogin, loginAttempts := a.loginAttempts,
    lockUntil := a.lockUntil, createdBy := a.createdBy,
    twoFactorEnabled := a.twoFactorEnabled, createdAt := a.createdAt,
    fullName := a.firstName ++ " " ++ a.lastName,
    isLocked := match a.lockUntil with
      | some t => now < t
      | none => false }

/-! ## Socket gateway (src/socket/socketHandlers.js)

Rooms are identified by their name pattern (user_ or conversation_ prefix
plus an id); room membership is a list of (room, socketId) pairs.  The
activeUsers registry is a map from user id to socket id.  Each handler
returns the new state together with the list of emitted events; an event
records the socket it is delivered to and its payload. -/

/-- A socket.io room name: the personal user room or a conversation room. -/
inductive Room where
  | user (id : Nat)
  | conversation (id : Nat)
deriving DecidableEq, Repr

/-- A live socket connection: the socket id and the authenticated user id. -/
structure Connection where
  socketId : Nat
  userId : Nat
deriving DecidableEq, Repr

/-- The events a handler can emit, keyed by the socket they are delivered
to. -/
inductive EventPayload where
  | newMessage (view : MessageView)
  | userJoinedConversation (userId conversationId : Nat)
  | userLeftConversation (userId conversationId : Nat)
  | messagesRead (userId conversationId : Nat) (messageIds : List Nat)
  | userTyping (userId conversationId : Nat)
  | userStoppedTyping (userId conversationId : Nat)
  | userOnline (userId : Nat)
  | userOffline (userId : Nat) (lastSeen : Int)
  | errorMessage (text : String)
deriving DecidableEq, Repr

/-- One delivered event: target socket id and payload. -/
structure Event where
  target : Nat
  payload : EventPayload
deriving DecidableEq, Repr

/-- Registry lookup (Map.get / Map.has). -/
def regGet (reg : List (Nat × Nat)) (k : Nat) : Option Nat :=
  (reg.find? (fun p => p.1 == k)).map (fun p => p.2)

/-- Registry insertion (Map.set): overwrite any existing binding for k. -/
def regSet (reg : List (Nat × Nat)) (k v : Nat) : List (Nat × Nat) :=
  reg.filter (fun p => p.1 ≠ k) ++ [(k, v)]

/-- Registry removal (Map.delete). -/
def regDelete (reg : List (Nat × Nat)) (k : Nat) : List (Nat × Nat) :=
  reg.filter (fun p => p.1 ≠ k)

/-- socket.join: room joining is idempotent. -/
def joinRoom (rooms : List (Room × Nat)) (r : Room) (sid : Nat) :
    List (Room × Nat) :=
  if rooms.contains (r, sid) then rooms else rooms ++ [(r, sid)]

/-- socket.leave. -/
def leaveRoom (rooms : List (Room × Nat)) (r : Room) (sid : Nat) :
    List (Room × Nat) :=
  rooms.filter (fun p => p ≠ (r, sid))

/-- The socket ids currently in a room. -/
def roomSockets (rooms : List (Room × Nat)) (r : Room) : List Nat :=
  (rooms.filter (fun p => p.1 == r)).map (fun p => p.2)

/-- io.to(room).emit: deliver to every socket in the room. -/
def emitToRoom (rooms : List (Room × Nat)) (r : Room) (p : EventPayload) :
    List Event :=
  (roomSockets rooms r).map (fun sid => { target := sid, payload := p })

/-- socket.to(room).emit: deliver to every socket in the room except the
sender. -/
def emitToRoomExcept (rooms : List (Room × Nat)) (r : Room) (exclude : Nat)
    (p : EventPayload) : List Event :=
  ((roomSockets rooms r).filter (fun sid => sid ≠ exclude)).map
    (fun sid => { target := sid, payload := p })

/-- socket.broadcast.emit: deliver to every connected socket except the
sender. -/
def broadcastExcept (sockets : List Connection) (exclude : Nat)
    (p : EventPayload) : List Event :=
  (sockets.filter (fun c => c.socketId ≠ exclude)).map
    (fun c => { target := c.socketId, payload := p })

/-- The whole mutable state the gateway operates on: the in-memory presence
registry and room membership, the set of connected sockets, and the backing
document stores. -/
structure GatewayState where
  activeUsers : List (Nat × Nat) := []
  rooms : List (Room × Nat) := []
  sockets : List Connection := []
  users : List UserDoc := []
  convs : List Conversation := []
  msgs : List Message := []
  nextMsgId : Nat := 0
deriving DecidableEq, Repr

/-- The membership findOne shared by the conversation-scoped handlers:
a conversation with the given id whose participants contain the user. -/
def findParticipantConversation (convs : List Conversation)
    (conversationId userId : Nat) : Option Conversation :=
  convs.find? (fun c => c.id == conversationId &&
    c.participants.contains userId)

/-- The connection handler body: register in the presence registry, persist
online status with the socket id, join the personal room, and broadcast
user_online to everyone else. -/
def handleConnect (st : GatewayState) (conn : Connection) (now : Int) :
    GatewayState × List Event :=
  ({ st with
      activeUsers := regSet st.activeUsers conn.userId conn.socketId,
      users := st.users.map (fun u =>
        if u.id == conn.userId
        then u.setOnlineStatus true (some conn.socketId) now else u),
      rooms := joinRoom st.rooms (.user conn.userId) conn.socketId,
      sockets := st.sockets ++ [conn] },
   broadcastExcept st.sockets conn.socketId (.userOnline conn.userId))

/-- join_conversation: when the membership findOne succeeds, join the room
and notify the other room members; otherwise do nothing (no error event). -/
def handleJoinConversation (st : GatewayState) (conn : Connection)
    (conversationId : Nat) : GatewayState × List Event :=
  match findParticipantConversation st.convs conversationId conn.userId with
  | some _ =>
    let rooms' := joinRoom st.rooms (.conversation conversationId) conn.socketId
    ({ st with rooms := rooms' },
     emitToRoomExcept rooms' (.conversation conversationId) conn.socketId
       (.userJoinedConversation conn.userId conversationId))
  | none => (st, [])

/-- leave_conversation: leave the room unconditionally (no membership check)
and notify the remaining room members. -/
def handleLeaveConversation (st : GatewayState) (conn : Connection)
    (conversationId : Nat) : GatewayState × List Event :=
  let rooms' := leaveRoom st.rooms (.conversation conversationId) conn.socketId
  ({ st with rooms := rooms' },
   emitToRoomExcept rooms' (.conversation conversationId) conn.socketId
     (.userLeftConversation conn.userId conversationId))

/-- The message document built by the send_message handler: sender taken
from the authenticated connection, content trimmed by the schema. -/
def newMessageDoc (st : GatewayState) (conn : Connection)
    (conversationId : Nat) (content : String) (mtype : MsgType)
    (replyTo : Option Nat) (now : Int) : Message :=
  { id := st.nextMsgId, conversation := conversationId,
    sender := conn.userId, content := jsTrim content, type := mtype,
    replyTo := replyTo, createdAt := now }

/-- send_message: membership check (explicit error event on failure), then
save the new message (schema validation: trimmed non-empty content of at most
2000 characters), update the conversation's lastActivity and lastMessage via
its save (whose pre-save hook can itself fail, after the message was already
stored), and broadcast the message to the whole conversation room, the sender
included. -/
def handleSendMessage (st : GatewayState) (conn : Connection)
    (conversationId : Nat) (content : String) (mtype : MsgType)
    (replyTo : Option Nat) (now : Int) : GatewayState × List Event :=
  match findParticipantConversation st.convs conversationId conn.userId with
  | none =>
    (st, [{ target := conn.socketId,
            payload := .errorMessage "Conversation not found" }])
  | some conversation =>
    let message : Message :=
      newMessageDoc st conn conversationId content mtype replyTo now
    if message.content == "" || message.content.length > 2000 then
      (st, [{ target := conn.socketId,
              payload := .errorMessage "Failed to send message" }])
    else
      let st1 := { st with msgs := st.msgs ++ [message],
                           nextMsgId := st.nextMsgId + 1 }
      match conversation.updateLastActivity (some message.id) now with
      | .error _ =>
        (st1, [{ target := conn.socketId,
                 payload := .errorMessage "Failed to send message" }])
      | .ok saved =>
        ({ st1 with convs := st1.convs.map (fun x =>
             if x.id == saved.id then saved else x) },
         emitToRoom st.rooms (.conversation conversationId)
           (.newMessage message.toJSONview))

/-- typing_start: fire-and-forget broadcast to the room minus the sender. -/
def handleTypingStart (st : GatewayState) (conn : Connection)
    (conversationId : Nat) : GatewayState × List Event :=
  (st, emitToRoomExcept st.rooms (.conversation conversationId) conn.socketId
    (.userTyping conn.userId conversationId))

/-- Marking one message id: findById, silently skip when absent, else apply
markAsRead for the user and save. -/
def markOne (msgs : List Message) (userId : Nat) (now : Int)
    (messageId : Nat) : List Message :=
  match msgs.find? (fun m => m.id == messageId) with
  | none => msgs
  | some _ => msgs.map (fun m =>
      if m.id == messageId then m.markAsRead userId now else m)

/-- mark_messages_read: membership check (explicit error event on failure),
mark each listed message as read by the caller, then notify the rest of the
room. -/
def handleMarkMessagesRead (st : GatewayState) (conn : Connection)
    (conversationId : Nat) (messageIds : List Nat) (now : Int) :
    GatewayState × List Event :=
  match findParticipantConversation st.convs conversationId conn.userId with
  | none =>
    (st, [{ target := conn.socketId,
            payload := .errorMessage "Conversation not found" }])
  | some _ =>
    ({ st with
        msgs := messageIds.foldl
          (fun acc mid => markOne acc conn.userId now mid) st.msgs },
     emitToRoomExcept st.rooms (.conversation conversationId) conn.socketId
       (.messagesRead conn.userId conversationId messageIds))

/-- disconnect: remove the user from the presence registry, persist offline
status (clearing the socket id and stamping lastSeen), and broadcast
user_offline to every other connected socket; the socket library removes the
closed socket from the connected set and from all its rooms. -/
def handleDisconnect (st : GatewayState) (conn : Connection) (now : Int) :
    GatewayState × List Event :=
  ({ st with
      activeUsers := regDelete st.activeUsers conn.userId,
      users := st.users.map (fun u =>
        if u.id == conn.userId then u.setOnlineStatus false none now else u),
      sockets := st.sockets.filter (fun c => c ≠ conn),
      rooms := st.rooms.filter (fun p => p.2 ≠ conn.socketId) },
   broadcastExcept st.sockets conn.socketId
     (.userOffline conn.userId now))

/-- Helper isUserOnline: registry membership. -/
def isUserOnline (st : GatewayState) (userId : Nat) : Bool :=
  (regGet st.activeUsers userId).isSome

/-! ## Sample documents and state, used to instantiate the theorems at
concrete inputs. -/

/-- A sample message: id 1 in conversation 5, sent by user 7 at time 0. -/
def sampleMsg : Message :=
  { id := 1, conversation := 5, sender := 7, content := "hi", createdAt := 0 }

/-- A sample message carrying file metadata, created at time 1. -/
def msgA : Message :=
  { id := 1, conversation := 1, sender := 1, content := "a", createdAt := 1,
    fileUrl := some "u", fileName := some "n", fileSize := some 3 }

/-- A second sample message in the same conversation, created at time 2. -/
def msgB : Message :=
  { id := 2, conversation := 1, sender := 2, content := "b", createdAt := 2 }

/-- A sample direct conversation between users 1 and 2. -/
def convAB : Conversation :=
  { id := 1, participants := [1, 2], type := .direct, createdBy := 1 }

/-- The conversation convAB after user 1 was pulled from its participants. -/
def convAfterPull : Conversation :=
  { id := 1, participants := [2], type := .direct, createdBy := 1 }

/-- The direct conversation the sample gateway state stores. -/
def sampleConv : Conversation :=
  { id := 5, participants := [1, 2], createdBy := 1 }

/-- Sample connected user 1 (socket 10). -/
def sampleUser1 : UserDoc :=
  { id := 1, username := "u1", email := "u1@mail.co", password := "h1",
    isOnline := true, socketId := some 10 }

/-- Sample connected user 2 (socket 20). -/
def sampleUser2 : UserDoc :=
  { id := 2, username := "u2", email := "u2@mail.co", password := "h2",
    isOnline := true, socketId := some 20 }

/-- A sample gateway state: users 1 and 2 online, both sockets joined to the
room of conversation 5. -/
def sampleState : GatewayState :=
  { activeUsers := [(1, 10), (2, 20)],
    rooms := [(.conversation 5, 10), (.conversation 5, 20)],
    sockets := [{ socketId := 10, userId := 1 },
                { socketId := 20, userId := 2 }],
    users := [sampleUser1, sampleUser2],
    convs := [sampleConv],
    msgs := [],
    nextMsgId := 0 }

/-! ## Helper lemmas -/

/-- The direct-conversation lookup is symmetric in its two users. -/
theorem findDirect_symm (convs : List Conversation) (u1 u2 : Nat) :
    findDirectConversation convs u1 u2 = findDirectConversation convs u2 u1 := by
  induction convs with
  | nil => rfl
  | cons c cs ih =>
    unfold findDirectConversation at *
    simp only [List.find?]
    have hpred : (c.type == ConvType.direct && c.participants.contains u1 &&
        c.participants.contains u2) =
        (c.type == ConvType.direct && c.participants.contains u2 &&
        c.participants.contains u1) := by
      cases c.type == ConvType.direct <;>
        cases c.participants.contains u1 <;>
        cases c.participants.contains u2 <;> rfl
    rw [hpred]
    cases (c.type == ConvType.direct && c.participants.contains u2 &&
        c.participants.contains u1) with
    | true => rfl
    | false => exact ih

/-- When the lookup fails on a store, on an extended store it continues into
the appended part. -/
theorem findDirect_append_of_none (convs cs : List Conversation) (u1 u2 : Nat)
    (h : findDirectConversation convs u1 u2 = none) :
    findDirectConversation (convs ++ cs) u1 u2 =
      findDirectConversation cs u1 u2 := by
  induction convs with
  | nil => rfl
  | cons c cs' ih =>
    unfold findDirectConversation at *
    simp only [List.find?, List.cons_append] at *
    cases hp : (c.type == ConvType.direct && c.participants.contains u1 &&
        c.participants.contains u2) with
    | true => rw [hp] at h; simp at h
    | false =>
      rw [hp] at h
      exact ih h

/-- Deduplicating a two-element list of distinct users keeps both, in
order. -/
theorem dedupFirst_pair (a b : Nat) (hab : a ≠ b) :
    dedupFirst ([b] ++ [a]) = [b, a] := by
  unfold dedupFirst dedupFirstAux
  simp only [List.cons_append, List.nil_append]
  rw [if_neg (by simp)]
  unfold dedupFirstAux
  rw [if_neg (by simpa using hab)]
  rfl

/-- Membership in the insertion step of the descending sort. -/
theorem mem_insertByCreatedAtDesc (m x : Message) (l : List Message) :
    x ∈ insertByCreatedAtDesc m l ↔ x = m ∨ x ∈ l := by
  induction l with
  | nil => simp [insertByCreatedAtDesc]
  | cons a as ih =>
    unfold insertByCreatedAtDesc
    split
    · simp only [List.mem_cons, ih]
      tauto
    · simp only [List.mem_cons]

/-- The descending sort keeps exactly the members of its input. -/
theorem mem_sortByCreatedAtDesc (l : List Message) (x : Message) :
    x ∈ sortByCreatedAtDesc l ↔ x ∈ l := by
  induction l with
  | nil => simp [sortByCreatedAtDesc]
  | cons a as ih =>
    simp only [sortByCreatedAtDesc, List.foldr] at *
    rw [mem_insertByCreatedAtDesc, ih]
    simp

/-- The pre-save hook either returns the document unchanged (valid) or an
error (invalid). -/
theorem preSaveCheck_cases (c : Conversation) :
    (c.preSaveCheck = .ok c ∧ validParticipants c = true) ∨
    ((∃ e, c.preSaveCheck = .error e) ∧ validParticipants c = false) := by
  by_cases h1 : (c.type == ConvType.direct && c.participants.length != 2) = true
  · right; simp [Conversation.preSaveCheck, validParticipants, h1]
  · by_cases h2 : (c.type == ConvType.group &&
        decide (c.participants.length < 2)) = true
    · right; simp [Conversation.preSaveCheck, validParticipants, h1, h2]
    · left; simp [Conversation.preSaveCheck, validParticipants, h1, h2]

/-- A successful save returns the document unchanged and certifies its
validity. -/
theorem preSaveCheck_ok_elim (c c' : Conversation)
    (h : c.preSaveCheck = .ok c') : c' = c ∧ validParticipants c = true := by
  rcases preSaveCheck_cases c with ⟨hok, hval⟩ | ⟨⟨e, herr⟩, _⟩
  · rw [hok] at h
    exact ⟨(Except.ok.inj h).symm, hval⟩
  · rw [herr] at h
    exact absurd h (by simp)

/-- A valid conversation falsifies both branches of the pre-save hook. -/
theorem validParticipants_conditions (c : Conversation)
    (h : validParticipants c = true) :
    (c.type == ConvType.direct && c.participants.length != 2) = false ∧
    (c.type == ConvType.group && decide (c.participants.length < 2)) = false := by
  unfold validParticipants Conversation.preSaveCheck at h
  by_cases h1 : (c.type == ConvType.direct && c.participants.length != 2) = true
  · rw [if_pos h1] at h
    simp at h
  · by_cases h2 : (c.type == ConvType.group &&
        decide (c.participants.length < 2)) = true
    · rw [if_neg h1, if_pos h2] at h
      simp at h
    · exact ⟨by simpa using h1, by simpa using h2⟩

/-- Updating the activity pointer fields of a valid conversation saves
successfully. -/
theorem preSaveCheck_pointer_update (c : Conversation) (la : Int)
    (lm : Option Nat) (h : validParticipants c = true) :
    Conversation.preSaveCheck { c with lastActivity := la, lastMessage := lm } =
      .ok { c with lastActivity := la, lastMessage := lm } := by
  obtain ⟨h1, h2⟩ := validParticipants_conditions c h
  unfold Conversation.preSaveCheck
  rw [if_neg (by simpa using h1), if_neg (by simpa using h2)]

/-- Every event of a room broadcast targets a socket of that room. -/
theorem emitToRoom_target_mem (rooms : List (Room × Nat)) (r : Room)
    (p : EventPayload) (e : Event) (he : e ∈ emitToRoom rooms r p) :
    e.target ∈ roomSockets rooms r := by
  unfold emitToRoom at he
  obtain ⟨sid, hsid, rfl⟩ := List.mem_map.mp he
  exact hsid

/-- Every event of a sender-excluding room broadcast targets a socket of
that room. -/
theorem emitToRoomExcept_target_mem (rooms : List (Room × Nat)) (r : Room)
    (ex : Nat) (p : EventPayload) (e : Event)
    (he : e ∈ emitToRoomExcept rooms r ex p) :
    e.target ∈ roomSockets rooms r := by
  unfold emitToRoomExcept at he
  obtain ⟨sid, hsid, rfl⟩ := List.mem_map.mp he
  exact List.mem_of_mem_filter hsid

/-- Looking a key up right after deleting it from the registry fails. -/
theorem regGet_regDelete (reg : List (Nat × Nat)) (k : Nat) :
    regGet (regDelete reg k) k = none := by
  induction reg with
  | nil => rfl
  | cons p ps ih =>
    unfold regDelete regGet at *
    by_cases hp : p.1 = k
    · simp only [List.filter]
      rw [show (decide (p.1 ≠ k)) = false by simp [hp]]
      exact ih
    · simp only [List.filter]
      rw [show (decide (p.1 ≠ k)) = true by simp [hp]]
      simp only [List.find?]
      rw [show (p.1 == k) = false by simp [hp]]
      exact ih

/-! ## Claim theorems -/

/-- C1: for distinct users a and b that both exist, when no direct
conversation between them is stored yet, the first create-conversation call
inserts one conversation c, and a second call — with the two participants
given in either order — finds c, returns it and inserts nothing, so at most
one direct conversation exists for the unordered pair. -/
theorem direct_conversation_unique (users : List Nat)
    (convs : List Conversation) (a b nid1 nid2 : Nat)
    (nm1 nm2 : Option String) (t1 t2 : Int)
    (hab : a ≠ b) (ha : a ∈ users) (hb : b ∈ users)
    (hnone : findDirectConversation convs a b = none) :
    ∃ c : Conversation,
      createConversationRoute users convs nid1 a [b] .direct nm1 t1 =
        (.ok c, convs ++ [c]) ∧
      createConversationRoute users (convs ++ [c]) nid2 b [a] .direct nm2 t2 =
        (.ok c, convs ++ [c]) ∧
      createConversationRoute users (convs ++ [c]) nid2 a [b] .direct nm2 t2 =
        (.ok c, convs ++ [c]) := by
  have hba : b ≠ a := fun h => hab h.symm
  have hdedup1 : dedupFirst ([b] ++ [a]) = [b, a] := dedupFirst_pair a b hab
  have hdedup2 : dedupFirst ([a] ++ [b]) = [a, b] := dedupFirst_pair b a hba
  set c : Conversation :=
    { id := nid1, participants := [b, a], type := .direct, name := nm1,
      createdBy := a, lastActivity := t1 } with hc
  have hfind1 : findDirectConversation convs b a = none := by
    rw [findDirect_symm]; exact hnone
  have hcall1 : createConversationRoute users convs nid1 a [b] .direct nm1 t1 =
      (.ok c, convs ++ [c]) := by
    unfold createConversationRoute
    rw [hdedup1]
    simp only [List.length_cons, List.length_nil]
    rw [if_pos (by simp)]
    rw [hfind1]
    simp only []
    rw [if_pos (by simp [ha, hb])]
    have hsave : Conversation.preSaveCheck c = .ok c := by
      unfold Conversation.preSaveCheck
      rw [if_neg (by simp [hc]), if_neg (by simp [hc])]
    rw [hc] at hsave ⊢
    rw [hsave]
  have hmatch : (c.type == ConvType.direct && c.participants.contains a &&
      c.participants.contains b) = true := by
    simp [hc]
  have hfind2 : findDirectConversation (convs ++ [c]) a b = some c := by
    rw [findDirect_append_of_none _ _ _ _ hnone]
    unfold findDirectConversation
    simp only [List.find?]
    rw [hmatch]
  have hfind3 : findDirectConversation (convs ++ [c]) b a = some c := by
    rw [findDirect_symm]
    exact hfind2
  refine ⟨c, hcall1, ?_, ?_⟩
  · unfold createConversationRoute
    rw [hdedup2]
    simp only [List.length_cons, List.length_nil]
    rw [if_pos (by simp)]
    rw [hfind2]
  · unfold createConversationRoute
    rw [hdedup1]
    simp only [List.length_cons, List.length_nil]
    rw [if_pos (by simp)]
    rw [hfind3]

/-- Witness for C1: instantiated with users 1 and 2 over an empty store. -/
theorem direct_conversation_unique_witness :
    ∃ c : Conversation,
      createConversationRoute [1, 2] [] 0 1 [2] .direct none 0 =
        (.ok c, [] ++ [c]) ∧
      createConversationRoute [1, 2] ([] ++ [c]) 9 2 [1] .direct none 3 =
        (.ok c, [] ++ [c]) ∧
      createConversationRoute [1, 2] ([] ++ [c]) 9 1 [2] .direct none 3 =
        (.ok c, [] ++ [c]) :=
  direct_conversation_unique [1, 2] [] 1 2 0 9 none none 0 3
    (by decide) (by decide) (by decide) (by decide)

/-- C2: the unread count computed by the getUnreadCount query equals, for
every store, conversation and identity, the number of messages of the
conversation whose sender differs from the identity, whose read-receipt set
does not contain the identity and which are not soft-deleted. -/
theorem unreadCount_matches_spec (msgs : List Message) (cid u : Nat) :
    getUnreadCount msgs cid u = specUnreadCount msgs cid u := by
  unfold getUnreadCount specUnreadCount
  rw [List.countP_filter, ← List.countP_eq_length_filter]
  apply List.countP_congr
  intro m _
  rw [Bool.eq_iff_iff]
  simp only [unreadQuery, Bool.and_eq_true, beq_iff_eq, bne_iff_ne, ne_eq,
    Bool.not_eq_true', List.any_eq_false, decide_eq_true_eq,
    beq_eq_false_iff_ne, Bool.not_eq_true]
  tauto

/-- C3: marking a message read is idempotent — starting from a message with
no receipt for the identity, one mark leaves exactly one receipt, re-marking
at any later time is a no-op (so the stored timestamp is unchanged), the
edit and soft-delete operations never touch the receipt set, and marking for
any identity preserves every existing receipt (the set is append-only). -/
theorem markAsRead_idempotent_spec (m : Message) (u : Nat) (t1 t2 : Int)
    (h : m.readBy.countP (fun r => r.user == u) = 0) :
    (m.markAsRead u t1).readBy.countP (fun r => r.user == u) = 1 ∧
    (m.markAsRead u t1).markAsRead u t2 = m.markAsRead u t1 ∧
    (∀ s t, ((m.markAsRead u t1).editContent s t).readBy =
      (m.markAsRead u t1).readBy) ∧
    (∀ t, ((m.markAsRead u t1).softDelete t).readBy =
      (m.markAsRead u t1).readBy) ∧
    (∀ v t, ∀ r ∈ m.readBy, r ∈ (m.markAsRead v t).readBy) := by
  have hany : m.readBy.any (fun r => r.user == u) = false := by
    rw [List.any_eq_false]
    intro r hr
    have hcount := List.countP_eq_zero.mp h r hr
    simpa using hcount
  have hmark : m.markAsRead u t1 =
      { m with readBy := m.readBy ++ [{ user := u, readAt := t1 }] } := by
    unfold Message.markAsRead
    rw [hany]
    simp
  refine ⟨?_, ?_, ?_, ?_, ?_⟩
  · rw [hmark]
    simp only [List.countP_append, h]
    simp [List.countP_cons]
  · unfold Message.markAsRead
    rw [hany]
    simp only [Bool.false_eq_true, if_false]
    rw [if_pos]
    simp
  · intro s t; rfl
  · intro t; rfl
  · intro v t r hr
    unfold Message.markAsRead
    split
    · exact hr
    · exact List.mem_append_left _ hr

/-- Witness for C3: user 2 marks the sample message read twice. -/
theorem markAsRead_idempotent_spec_witness :
    (sampleMsg.markAsRead 2 10).readBy.countP (fun r => r.user == 2) = 1 ∧
    (sampleMsg.markAsRead 2 10).markAsRead 2 20 = sampleMsg.markAsRead 2 10 :=
  ⟨(markAsRead_idempotent_spec sampleMsg 2 10 20 (by decide)).1,
   (markAsRead_idempotent_spec sampleMsg 2 10 20 (by decide)).2.1⟩

/-- C4: a participant sending a message persists a new message with that
sender and content, updates the lastMessage pointer and lastActivity of the
conversation, and broadcasts the new-message event to every socket in the
room of the conversation, the sender included — in particular to the sender
and to a second participant in the room, with sender and content carried in
the payload. -/
theorem send_message_behavior (st : GatewayState) (conn : Connection)
    (u2sock conversationId : Nat) (c : Conversation) (content : String)
    (mtype : MsgType) (replyTo : Option Nat) (now : Int)
    (hfind : findParticipantConversation st.convs conversationId conn.userId =
      some c)
    (hvalid : validParticipants c = true)
    (hne : jsTrim content ≠ "")
    (hlen : (jsTrim content).length ≤ 2000)
    (h1 : conn.socketId ∈ roomSockets st.rooms (.conversation conversationId))
    (h2 : u2sock ∈ roomSockets st.rooms (.conversation conversationId)) :
    (handleSendMessage st conn conversationId content mtype replyTo now).1.msgs
      = st.msgs ++ [newMessageDoc st conn conversationId content mtype replyTo
          now] ∧
    (handleSendMessage st conn conversationId content mtype replyTo now).1.convs
      = st.convs.map (fun x => if x.id == c.id then
          { c with lastActivity := now,
                   lastMessage := some st.nextMsgId } else x) ∧
    (handleSendMessage st conn conversationId content mtype replyTo now).2
      = emitToRoom st.rooms (.conversation conversationId)
          (.newMessage (newMessageDoc st conn conversationId content mtype
            replyTo now).toJSONview) ∧
    (∀ sid ∈ roomSockets st.rooms (.conversation conversationId),
      ({ target := sid,
         payload := .newMessage (newMessageDoc st conn conversationId content
           mtype replyTo now).toJSONview } : Event) ∈
        (handleSendMessage st conn conversationId content mtype replyTo
          now).2) ∧
    ({ target := conn.socketId,
       payload := .newMessage (newMessageDoc st conn conversationId content
         mtype replyTo now).toJSONview } : Event) ∈
      (handleSendMessage st conn conversationId content mtype replyTo now).2 ∧
    ({ target := u2sock,
       payload := .newMessage (newMessageDoc st conn conversationId content
         mtype replyTo now).toJSONview } : Event) ∈
      (handleSendMessage st conn conversationId content mtype replyTo now).2 ∧
    (newMessageDoc st conn conversationId content mtype replyTo
      now).toJSONview.sender = conn.userId ∧
    (newMessageDoc st conn conversationId content mtype replyTo
      now).toJSONview.content = jsTrim content := by
  have hrun : handleSendMessage st conn conversationId content mtype replyTo
      now =
      ({ st with
          msgs := st.msgs ++ [newMessageDoc st conn conversationId content
            mtype replyTo now],
          nextMsgId := st.nextMsgId + 1,
          convs := st.convs.map (fun x => if x.id == c.id then
            { c with lastActivity := now,
                     lastMessage := some st.nextMsgId } else x) },
       emitToRoom st.rooms (.conversation conversationId)
         (.newMessage (newMessageDoc st conn conversationId content mtype
           replyTo now).toJSONview)) := by
    unfold handleSendMessage
    rw [hfind]
    simp only []
    rw [if_neg ?hcond]
    case hcond =>
      simp only [newMessageDoc, Bool.or_eq_true, beq_iff_eq,
        decide_eq_true_eq]
      push_neg
      exact ⟨hne, by omega⟩
    unfold Conversation.updateLastActivity
    rw [preSaveCheck_pointer_update c now _ hvalid]
    rfl
  rw [hrun]
  refine ⟨rfl, rfl, rfl, ?_, ?_, ?_, rfl, rfl⟩
  · intro sid hsid
    unfold emitToRoom
    exact List.mem_map_of_mem _ hsid
  · unfold emitToRoom
    exact List.mem_map_of_mem _ h1
  · unfold emitToRoom
    exact List.mem_map_of_mem _ h2

/-- Witness for C4: user 1 (socket 10) sends hello in conversation 5 of the
sample state; both room sockets 10 and 20 receive the event and the stores
are updated. -/
theorem send_message_behavior_witness :
    (handleSendMessage sampleState { socketId := 10, userId := 1 } 5 "hello"
      .text none 99).1.msgs =
      sampleState.msgs ++ [newMessageDoc sampleState
        { socketId := 10, userId := 1 } 5 "hello" .text none 99] ∧
    (handleSendMessage sampleState { socketId := 10, userId := 1 } 5 "hello"
      .text none 99).1.convs =
      sampleState.convs.map (fun x => if x.id == sampleConv.id then
        { sampleConv with lastActivity := 99,
                          lastMessage := some sampleState.nextMsgId } else x) ∧
    ({ target := 10,
       payload := .newMessage (newMessageDoc sampleState
         { socketId := 10, userId := 1 } 5 "hello" .text none
         99).toJSONview } : Event) ∈
      (handleSendMessage sampleState { socketId := 10, userId := 1 } 5 "hello"
        .text none 99).2 ∧
    ({ target := 20,
       payload := .newMessage (newMessageDoc sampleState
         { socketId := 10, userId := 1 } 5 "hello" .text none
         99).toJSONview } : Event) ∈
      (handleSendMessage sampleState { socketId := 10, userId := 1 } 5 "hello"
        .text none 99).2 :=
  ⟨(send_message_behavior sampleState { socketId := 10, userId := 1 } 20 5
      sampleConv "hello" .text none 99 (by decide) (by decide) (by decide)
      (by decide) (by decide) (by decide)).1,
   (send_message_behavior sampleState { socketId := 10, userId := 1 } 20 5
      sampleConv "hello" .text none 99 (by decide) (by decide) (by decide)
      (by decide) (by decide) (by decide)).2.1,
   (send_message_behavior sampleState { socketId := 10, userId := 1 } 20 5
      sampleConv "hello" .text none 99 (by decide) (by decide) (by decide)
      (by decide) (by decide) (by decide)).2.2.2.2.1,
   (send_message_behavior sampleState { socketId := 10, userId := 1 } 20 5
      sampleConv "hello" .text none 99 (by decide) (by decide) (by decide)
      (by decide) (by decide) (by decide)).2.2.2.2.2.1⟩

/-- C5: for an identity that is not a participant of the conversation,
send-message and mark-messages-read emit an explicit error event and leave
the state unchanged, while join-conversation silently does nothing; and as
long as the socket of that identity is not in the room of the conversation,
no room event of the conversation emitted by another connection targets it. -/
theorem nonparticipant_isolation (st : GatewayState) (conn : Connection)
    (conversationId : Nat) (content : String) (mtype : MsgType)
    (replyTo : Option Nat) (mids : List Nat) (now : Int)
    (hnp : findParticipantConversation st.convs conversationId conn.userId =
      none) :
    handleSendMessage st conn conversationId content mtype replyTo now =
      (st, [{ target := conn.socketId,
              payload := .errorMessage "Conversation not found" }]) ∧
    handleMarkMessagesRead st conn conversationId mids now =
      (st, [{ target := conn.socketId,
              payload := .errorMessage "Conversation not found" }]) ∧
    handleJoinConversation st conn conversationId = (st, []) ∧
    (conn.socketId ∉ roomSockets st.rooms (.conversation conversationId) →
      ∀ conn2 : Connection, conn2.socketId ≠ conn.socketId →
        (∀ content2 mtype2 rt2 now2,
          ∀ e ∈ (handleSendMessage st conn2 conversationId content2 mtype2
              rt2 now2).2, e.target ≠ conn.socketId) ∧
        (∀ mids2 now2,
          ∀ e ∈ (handleMarkMessagesRead st conn2 conversationId mids2
              now2).2, e.target ≠ conn.socketId) ∧
        (∀ e ∈ (handleTypingStart st conn2 conversationId).2,
          e.target ≠ conn.socketId)) := by
  refine ⟨?_, ?_, ?_, ?_⟩
  · unfold handleSendMessage
    rw [hnp]
  · unfold handleMarkMessagesRead
    rw [hnp]
  · unfold handleJoinConversation
    rw [hnp]
  · intro hout conn2 hne
    refine ⟨?_, ?_, ?_⟩
    · intro content2 mtype2 rt2 now2 e he
      unfold handleSendMessage at he
      cases hfind2 : findParticipantConversation st.convs conversationId
          conn2.userId with
      | none =>
        rw [hfind2] at he
        simp only [List.mem_singleton] at he
        rw [he]
        exact hne
      | some c =>
        rw [hfind2] at he
        simp only [] at he
        split at he
        · simp only [List.mem_singleton] at he
          rw [he]
          exact hne
        · split at he
          · simp only [List.mem_singleton] at he
            rw [he]
            exact hne
          · intro habs
            rw [← habs] at hout
            exact hout (emitToRoom_target_mem _ _ _ _ he)
    · intro mids2 now2 e he
      unfold handleMarkMessagesRead at he
      cases hfind2 : findParticipantConversation st.convs conversationId
          conn2.userId with
      | none =>
        rw [hfind2] at he
        simp only [List.mem_singleton] at he
        rw [he]
        exact hne
      | some c =>
        rw [hfind2] at he
        simp only [] at he
        intro habs
        rw [← habs] at hout
        exact hout (emitToRoomExcept_target_mem _ _ _ _ _ he)
    · intro e he
      unfold handleTypingStart at he
      intro habs
      rw [← habs] at hout
      exact hout (emitToRoomExcept_target_mem _ _ _ _ _ he)

/-- Witness for C5: user 3 (socket 30) is no participant of conversation 5
of the sample state. -/
theorem nonparticipant_isolation_witness :
    handleSendMessage sampleState { socketId := 30, userId := 3 } 5 "hey"
      .text none 1 =
      (sampleState,
       [{ target := 30,
          payload := .errorMessage "Conversation not found" }]) ∧
    handleMarkMessagesRead sampleState { socketId := 30, userId := 3 } 5 [1] 1 =
      (sampleState,
       [{ target := 30,
          payload := .errorMessage "Conversation not found" }]) ∧
    handleJoinConversation sampleState { socketId := 30, userId := 3 } 5 =
      (sampleState, []) :=
  ⟨(nonparticipant_isolation sampleState { socketId := 30, userId := 3 } 5
      "hey" .text none [1] 1 (by decide)).1,
   (nonparticipant_isolation sampleState { socketId := 30, userId := 3 } 5
      "hey" .text none [1] 1 (by decide)).2.1,
   (nonparticipant_isolation sampleState { socketId := 30, userId := 3 } 5
      "hey" .text none [1] 1 (by decide)).2.2.1⟩

/-- C6 counterexample: deleting user 1 pulls it from the valid direct
conversation between users 1 and 2 through a bulk update that bypasses the
pre-save validation, leaving a stored direct conversation with a single
participant — so the cardinality constraint does not hold after every write
that changes the participant set. -/
theorem participant_constraint_counterexample :
    validParticipants convAB = true ∧
    deleteUserOp [1, 2] [convAB] [] 1 = .ok ([2], [convAfterPull], []) ∧
    convAfterPull.type = .direct ∧
    convAfterPull.participants.length = 1 ∧
    validParticipants convAfterPull = false := by decide

/-- C6 amended: creation fails when type direct comes with a participant
count other than 2 or type group with fewer than 2, and the participant-set
changes that go through a document save (addParticipant, removeParticipant)
preserve the constraint; the admin delete-user operation, however, removes
the user from participant arrays without validation and deletes only
conversations left empty, so it can leave a direct conversation with one
participant. -/
theorem participant_constraint_amended :
    (∀ users convs nextId caller ps nm now,
      (∀ u ∈ dedupFirst (ps ++ [caller]), u ∈ users) →
      (dedupFirst (ps ++ [caller])).length ≠ 2 →
      createConversationRoute users convs nextId caller ps .direct nm now =
        (.error "Server error creating conversation", convs)) ∧
    (∀ users convs nextId caller ps nm now,
      (∀ u ∈ dedupFirst (ps ++ [caller]), u ∈ users) →
      (dedupFirst (ps ++ [caller])).length < 2 →
      createConversationRoute users convs nextId caller ps .group nm now =
        (.error "Server error creating conversation", convs)) ∧
    (∀ (c : Conversation) (u : Nat) (c' : Conversation),
      validParticipants c = true → c.addParticipant u = .ok c' →
      validParticipants c' = true) ∧
    (∀ (c : Conversation) (u : Nat) (c' : Conversation),
      c.removeParticipant u = .ok c' → validParticipants c' = true) ∧
    (deleteUserOp [1, 2] [convAB] [] 1 = .ok ([2], [convAfterPull], []) ∧
      validParticipants convAfterPull = false) := by
  refine ⟨?_, ?_, ?_, ?_, by decide⟩
  · intro users convs nextId caller ps nm now hmem hlen
    unfold createConversationRoute
    simp only []
    rw [if_neg (by simpa using hlen)]
    rw [if_pos (by rw [List.all_eq_true]; intro u hu; simpa using hmem u hu)]
    have herr : (Conversation.preSaveCheck
        { id := nextId, participants := dedupFirst (ps ++ [caller]),
          type := .direct, name := nm, createdBy := caller,
          lastActivity := now }) =
        .error "Direct conversations must have exactly 2 participants" := by
      unfold Conversation.preSaveCheck
      rw [if_pos (by simpa using hlen)]
    rw [herr]
  · intro users convs nextId caller ps nm now hmem hlen
    unfold createConversationRoute
    simp only []
    rw [if_neg (by simp)]
    rw [if_pos (by rw [List.all_eq_true]; intro u hu; simpa using hmem u hu)]
    have herr : (Conversation.preSaveCheck
        { id := nextId, participants := dedupFirst (ps ++ [caller]),
          type := .group, name := nm, createdBy := caller,
          lastActivity := now }) =
        .error "Group conversations must have at least 2 participants" := by
      unfold Conversation.preSaveCheck
      rw [if_neg (by simp), if_pos (by simpa using hlen)]
    rw [herr]
  · intro c u c' hval hadd
    unfold Conversation.addParticipant at hadd
    split at hadd
    · rw [← Except.ok.inj hadd]
      exact hval
    · obtain ⟨hc', hv⟩ := preSaveCheck_ok_elim _ _ hadd
      rw [hc']
      exact hv
  · intro c u c' hrem
    unfold Conversation.removeParticipant at hrem
    obtain ⟨hc', hv⟩ := preSaveCheck_ok_elim _ _ hrem
    rw [hc']
    exact hv

/-- Witness for C6 amended: creating a direct conversation with three
distinct participants fails and inserts nothing. -/
theorem participant_constraint_amended_witness :
    createConversationRoute [1, 2, 3] [] 0 1 [2, 3] .direct none 0 =
      (.error "Server error creating conversation", []) :=
  participant_constraint_amended.1 [1, 2, 3] [] 0 1 [2, 3] none 0
    (by decide) (by decide)

/-- C7 counterexample: before soft deletion message 1 occupies a position in
the reader listing of its conversation; after soft deletion the listing
omits it entirely instead of showing it at its position with the
placeholder. -/
theorem softDelete_position_counterexample :
    ((getConversationMessages [msgA, msgB] 1 1 50).map (fun m => m.id) =
      [2, 1]) ∧
    ((getConversationMessages [msgA.softDelete 5, msgB] 1 1 50).map
      (fun m => m.id) = [2]) ∧
    (msgA.softDelete 5) ∉ getConversationMessages [msgA.softDelete 5, msgB]
      1 1 50 := by
  decide

/-- C7 amended: soft deletion retains the stored row with id, creation time,
conversation and sender unchanged, flags it deleted and sets the placeholder
content; the JSON view shows the placeholder and omits the file metadata;
but the conversation message listing excludes soft-deleted messages, so the
message no longer appears to readers of the listing at all. -/
theorem softDelete_amended (m : Message) (t : Int) :
    (m.softDelete t).id = m.id ∧
    (m.softDelete t).createdAt = m.createdAt ∧
    (m.softDelete t).conversation = m.conversation ∧
    (m.softDelete t).sender = m.sender ∧
    (m.softDelete t).isDeleted = true ∧
    (m.softDelete t).content = "This message was deleted" ∧
    (m.softDelete t).toJSONview.content = "This message was deleted" ∧
    (m.softDelete t).toJSONview.fileUrl = none ∧
    (m.softDelete t).toJSONview.fileName = none ∧
    (m.softDelete t).toJSONview.fileSize = none ∧
    (∀ msgs cid page limit,
      (getConversationMessages msgs cid page limit).all
        (fun x => x.isDeleted == false) = true) := by
  refine ⟨rfl, rfl, rfl, rfl, rfl, rfl, rfl, rfl, rfl, rfl, ?_⟩
  intro msgs cid page limit
  rw [List.all_eq_true]
  intro x hx
  unfold getConversationMessages at hx
  have hx1 : x ∈ (sortByCreatedAtDesc (msgs.filter (fun m =>
      m.conversation == cid && m.isDeleted == false))) :=
    List.mem_of_mem_drop (List.mem_of_mem_take hx)
  rw [mem_sortByCreatedAtDesc] at hx1
  have h2 := List.mem_filter.mp hx1
  simp only [Bool.and_eq_true, beq_iff_eq] at h2
  simp [h2.2.2]

/-- C8: an edit by the owner is accepted when the elapsed time since
creation is at or below the 15-minute window and rejected when it is past
it; an accepted edit stores exactly the message with the new content, the
edited flag and the edit timestamp, retaining the original content
nowhere. -/
theorem edit_window_boundary (msgs : List Message) (caller id : Nat)
    (content : String) (now : Int) (m : Message)
    (hfind : findEditableMessage msgs id caller = some m)
    (hc : jsTrim content ≠ "")
    (hlen : (jsTrim content).length ≤ 2000) :
    (now - m.createdAt ≤ editWindowMs →
      editMessageRoute msgs caller id content now =
        .ok (msgs.map (fun x => if x.id == m.id
          then { m with content := jsTrim content, isEdited := true,
                        editedAt := some now }
          else x))) ∧
    (now - m.createdAt > editWindowMs →
      editMessageRoute msgs caller id content now =
        .error "Message is too old to edit") := by
  unfold editMessageRoute
  rw [if_neg (by simpa using hc)]
  simp only [hfind]
  constructor
  · intro hin
    rw [if_neg (by omega), if_pos (by simpa [Message.editContent] using hlen)]
    rfl
  · intro hout
    rw [if_pos (by omega)]

/-- Witness for C8: the sample message (created at 0) is edited exactly at
the window edge (900000 ms) and accepted, then 1 ms past it and rejected
(the route compares timestamps at millisecond granularity, so 1 second past
the edge is rejected a fortiori). -/
theorem edit_window_boundary_witness :
    editMessageRoute [sampleMsg] 7 1 "updated" 900000 =
      .ok ([sampleMsg].map (fun x => if x.id == sampleMsg.id
        then { sampleMsg with content := jsTrim "updated", isEdited := true,
                              editedAt := some 900000 }
        else x)) ∧
    editMessageRoute [sampleMsg] 7 1 "updated" 900001 =
      .error "Message is too old to edit" :=
  ⟨(edit_window_boundary [sampleMsg] 7 1 "updated" 900000 sampleMsg
      (by decide) (by decide) (by decide)).1 (by decide),
   (edit_window_boundary [sampleMsg] 7 1 "updated" 900001 sampleMsg
      (by decide) (by decide) (by decide)).2 (by decide)⟩

/-- C9: when a connection closes while its user is online, the presence
registry no longer knows the user, the persisted account of the user shows
offline with lastSeen stamped to the disconnect time and the connection
identifier cleared, a user-offline event goes to every other connected
socket, and the invariant that a stored connection identifier implies
online remains true for every user. -/
theorem disconnect_presence (st : GatewayState) (conn : Connection) (now : Int)
    (hinv : ∀ u ∈ st.users, u.socketId ≠ none → u.isOnline = true) :
    regGet (handleDisconnect st conn now).1.activeUsers conn.userId = none ∧
    (∀ u ∈ (handleDisconnect st conn now).1.users, u.id = conn.userId →
      u.isOnline = false ∧ u.lastSeen = some now ∧ u.socketId = none) ∧
    (∀ c ∈ st.sockets, c.socketId ≠ conn.socketId →
      ({ target := c.socketId,
         payload := .userOffline conn.userId now } : Event) ∈
        (handleDisconnect st conn now).2) ∧
    (∀ u ∈ (handleDisconnect st conn now).1.users, u.socketId ≠ none →
      u.isOnline = true) := by
  refine ⟨regGet_regDelete _ _, ?_, ?_, ?_⟩
  · intro u hu hid
    simp only [handleDisconnect, List.mem_map] at hu
    obtain ⟨x, hx, hxu⟩ := hu
    by_cases hxid : (x.id == conn.userId) = true
    · rw [if_pos hxid] at hxu
      rw [← hxu]
      exact ⟨rfl, rfl, rfl⟩
    · rw [if_neg hxid] at hxu
      rw [← hxu] at hid
      exact absurd (by simpa using hid) (by simpa using hxid)
  · intro c hc hne
    simp only [handleDisconnect, broadcastExcept, List.mem_map]
    exact ⟨c, List.mem_filter.mpr ⟨hc, by simpa using hne⟩, rfl⟩
  · intro u hu hsock
    simp only [handleDisconnect, List.mem_map] at hu
    obtain ⟨x, hx, hxu⟩ := hu
    by_cases hxid : (x.id == conn.userId) = true
    · rw [if_pos hxid] at hxu
      rw [← hxu] at hsock
      exact absurd rfl hsock
    · rw [if_neg hxid] at hxu
      rw [← hxu] at hsock ⊢
      exact hinv x hx hsock

/-- Witness for C9: user 1 (socket 10) disconnects from the sample state;
the registry lookup turns absent and the other connected socket 20 receives
the offline event. -/
theorem disconnect_presence_witness :
    regGet (handleDisconnect sampleState { socketId := 10, userId := 1 }
      77).1.activeUsers 1 = none ∧
    ({ target := 20, payload := .userOffline 1 77 } : Event) ∈
      (handleDisconnect sampleState { socketId := 10, userId := 1 } 77).2 :=
  ⟨(disconnect_presence sampleState { socketId := 10, userId := 1 } 77
      (by decide)).1,
   (disconnect_presence sampleState { socketId := 10, userId := 1 } 77
      (by decide)).2.2.1 { socketId := 20, userId := 2 } (by decide)
      (by decide)⟩

/-- C10: the JSON serialization of users is unchanged under any change of
the stored password hash and socket identifier, and that of admins under
any change of the password hash and two-factor secret — the view types
carry no such fields, so two records differing only in those secrets
serialize identically. -/
theorem serialization_hides_secrets :
    (∀ (u : UserDoc) (p : String) (s : Option Nat),
        UserDoc.toJSONview { u with password := p, socketId := s } =
          UserDoc.toJSONview u) ∧
    (∀ (a : AdminDoc) (p : String) (s : Option String) (now : Int),
        AdminDoc.toJSONview { a with password := p, twoFactorSecret := s } now =
          AdminDoc.toJSONview a now) :=
  ⟨fun _ _ _ => rfl, fun _ _ _ _ => rfl⟩

end MessengerKo
